import Mathlib

/-!
Verification of the Smithery MCP agent sample (smithery_tools.py and
smithery_mcp_agent.py): a shallow embedding of the tool suite — the search,
install and inspect tools, the server-manager state machine over the shared
in-memory registry, and the subprocess command runner — together with proofs
of the specified behavioural properties.

Python dictionaries with string keys are embedded as ordered association
lists (insertion order, first-match lookup, in-place overwrite on key
assignment, append on fresh key), matching CPython dict semantics for the
operations the code performs.  The external subprocess boundary is embedded
as an explicit `spawn` function from an argv vector to a process outcome
(exit code, captured stdout, captured stderr).  Python `None` is `Option`;
exceptions raised by the command runner are `Except.error`, and the
tool-level catch-and-report policy is the total function that pattern
matches on that `Except`.
-/

namespace Smithery

/-- A Python value stored in a configuration mapping (`Dict[str, Any]`
values as the samples use them: strings, integers, booleans). -/
inductive JVal where
  | str (s : String)
  | int (n : Int)
  | bool (b : Bool)
  deriving DecidableEq, Repr

/-- A configuration mapping (`Dict[str, Any]`), as an ordered association
list with string keys. -/
abbrev Config := List (String × JVal)

/-- Outcome of a spawned external process: exit code and captured output
streams, as `asyncio.create_subprocess_exec` + `communicate` deliver them. -/
structure ProcResult where
  returncode : Int
  stdout : String
  stderr : String
  deriving DecidableEq, Repr

/-- `_run_command` of SmitheryInstallTool and SmitheryInspectTool: spawn the
argv vector, and raise `RuntimeError("Command failed: " + stderr)` when the
exit code is non-zero, otherwise return the `(stdout, stderr)` pair.  The
spawned process is the explicit `spawn` argument; the raised exception is
the `Except.error` branch carrying the exception message. -/
def runCommand (spawn : List String → ProcResult) (cmdParts : List String) :
    Except String (String × String) :=
  let p := spawn cmdParts
  if p.returncode ≠ 0 then
    Except.error ("Command failed: " ++ p.stderr)
  else
    Except.ok (p.stdout, p.stderr)

/-- `client = client or self.default_client` in SmitheryInstallTool.execute:
Python `or` falls back on the default both for `None` and for the empty
(falsy) string. -/
def resolveClient (client : Option String) (defaultClient : String) : String :=
  match client with
  | some c => if c.isEmpty then defaultClient else c
  | none => defaultClient

/-- The argv vector SmitheryInstallTool.execute builds: the install
subcommand with `--client`, extended with `--config <file>` when a (truthy)
config file path is supplied. -/
def installCmdParts (serverName client : String) (configFile : Option String) :
    List String :=
  ["npx", "-y", "@smithery/cli", "install", serverName, "--client", client] ++
    match configFile with
    | some f => if f.isEmpty then [] else ["--config", f]
    | none => []

/-- Result dictionary returned by SmitheryInstallTool.execute: the success
shape `{server, client, status, output, command}` or the failure shape
`{server, client, status, error, command}`. -/
inductive InstallResult where
  | installed (server client status output command : String)
  | failed (server client status error command : String)
  deriving DecidableEq, Repr

/-- SmitheryInstallTool.execute: resolve the client, build the argv, run it,
and catch any command failure, converting it into the failure result value
(`str(e)` of the raised exception in the `error` field) instead of letting
the exception propagate.  Totality of this function is the embedding of the
catch-all `except` clause. -/
def installExecute (defaultClient : String) (spawn : List String → ProcResult)
    (serverName : String) (client : Option String) (configFile : Option String) :
    InstallResult :=
  let cl := resolveClient client defaultClient
  let cmdParts := installCmdParts serverName cl configFile
  match runCommand spawn cmdParts with
  | Except.ok r =>
      InstallResult.installed serverName cl "installed" r.1
        (String.intercalate " " cmdParts)
  | Except.error e =>
      InstallResult.failed serverName cl "failed" e
        (String.intercalate " " cmdParts)

/-- One entry of the static result list SmitherySearchTool.execute returns. -/
structure SearchEntry where
  name : String
  description : String
  package : String
  remote : Bool
  tools_count : Nat
  deriving DecidableEq, Repr

/-- The hard-coded two-record result list of SmitherySearchTool.execute. -/
def staticSearchResults : List SearchEntry :=
  [{ name := "exa",
     description := "Fast, intelligent web search and crawling",
     package := "exa", remote := true, tools_count := 6 },
   { name := "@mnhlt/WebSearch-MCP",
     description := "Self-hosted web search API",
     package := "@mnhlt/WebSearch-MCP", remote := false, tools_count := 1 }]

/-- The dictionary SmitherySearchTool.execute returns:
`{query, results, note}`. -/
structure SearchResult where
  query : String
  results : List SearchEntry
  note : String
  deriving DecidableEq, Repr

/-- SmitherySearchTool.execute: echoes the query and returns the static
simulated result list and note; the `limit` parameter is accepted and
ignored, as in the source. -/
def searchExecute (query : String) (_limit : Nat) : SearchResult :=
  { query := query
    results := staticSearchResults
    note := "This is a simulated search. In production, use Smithery\x27s API" }

/-- An InstalledServerRecord as `_start_server` creates it:
`{"status": ..., "config": ..., "pid": ...}`.  The config field is `Option`
because Python can store `None` there (configure forwards its argument
verbatim, which may be `None`). -/
structure ServerRecord where
  status : String
  config : Option Config
  pid : Nat
  deriving DecidableEq, Repr

/-- The shared `installed_servers` registry: a Python dict from server name
to record, as an ordered association list. -/
abbrev Registry := List (String × ServerRecord)

/-- First-match key lookup, `d[k]` / `k in d` on a Python dict. -/
def Registry.lookup : Registry → String → Option ServerRecord
  | [], _ => none
  | (k, v) :: rest, s => if k = s then some v else Registry.lookup rest s

/-- Key assignment `d[k] = v` on a Python dict: overwrite in place when the
key is present (keeping its position), append otherwise. -/
def Registry.set : Registry → String → ServerRecord → Registry
  | [], s, v => [(s, v)]
  | (k, w) :: rest, s, v =>
      if k = s then (s, v) :: rest else (k, w) :: Registry.set rest s v

/-- `list(d.keys())` on the registry. -/
def Registry.keys (reg : Registry) : List String := reg.map Prod.fst

/-- The result dictionaries MCPServerManagerTool.execute can return, one
constructor per dictionary shape in the source: the
`{server, action, status, message}` shape (start success, stop
success/error, configure error), the configure-success shape carrying the
config back, the two status shapes, and the unknown-action error shape. -/
inductive ManagerResult where
  | actionMsg (server action status message : String)
  | configOk (server action status : String) (config : Option Config)
  | statusInfo (server : String) (info : ServerRecord)
  | notInstalled (server status : String)
  | unknownAction (error : String) (valid_actions : List String)
  deriving DecidableEq, Repr

/-- `_start_server`: unconditionally overwrite the record for the server
with status "running", the supplied config (`config or {}`), a simulated
pid, and report success. -/
def startServer (reg : Registry) (serverName : String) (config : Option Config) :
    Registry × ManagerResult :=
  (Registry.set reg serverName
     { status := "running", config := some (config.getD []), pid := 12345 },
   ManagerResult.actionMsg serverName "start" "success"
     ("Server " ++ serverName ++ " started successfully"))

/-- `_stop_server`: if the server is registered, set its record status to
"stopped" and report success; otherwise report an error result. -/
def stopServer (reg : Registry) (serverName : String) : Registry × ManagerResult :=
  match Registry.lookup reg serverName with
  | some r =>
      (Registry.set reg serverName { r with status := "stopped" },
       ManagerResult.actionMsg serverName "stop" "success"
         ("Server " ++ serverName ++ " stopped successfully"))
  | none =>
      (reg,
       ManagerResult.actionMsg serverName "stop" "error"
         ("Server " ++ serverName ++ " not found"))

/-- `_configure_server`: if the server is registered, replace its stored
config wholesale with the supplied one and report success (echoing the
config); otherwise report an error result. -/
def configureServer (reg : Registry) (serverName : String) (config : Option Config) :
    Registry × ManagerResult :=
  match Registry.lookup reg serverName with
  | some r =>
      (Registry.set reg serverName { r with config := config },
       ManagerResult.configOk serverName "configure" "success" config)
  | none =>
      (reg,
       ManagerResult.actionMsg serverName "configure" "error"
         ("Server " ++ serverName ++ " not found"))

/-- `_get_status`: return the stored record, or the not-installed shape when
the server is absent. -/
def getStatus (reg : Registry) (serverName : String) : Registry × ManagerResult :=
  match Registry.lookup reg serverName with
  | some r => (reg, ManagerResult.statusInfo serverName r)
  | none => (reg, ManagerResult.notInstalled serverName "not_installed")

/-- MCPServerManagerTool.execute: the if/elif dispatch over the action
string, falling through to the unknown-action error result.  State passing
makes the mutation of the shared registry explicit: the function returns
the updated registry next to the result dictionary. -/
def managerExecute (reg : Registry) (action serverName : String)
    (config : Option Config) : Registry × ManagerResult :=
  if action = "start" then startServer reg serverName config
  else if action = "stop" then stopServer reg serverName
  else if action = "configure" then configureServer reg serverName config
  else if action = "status" then getStatus reg serverName
  else
    (reg,
     ManagerResult.unknownAction ("Unknown action: " ++ action)
       ["start", "stop", "configure", "status"])

/-- Python `str(list_of_strings)`: the repr of a list of single-quoted
strings, as it is interpolated into the missing-server message. -/
def pyStrListRepr (ks : List String) : String :=
  "[" ++ String.intercalate ", " (ks.map (fun k => "\x27" ++ k ++ "\x27")) ++ "]"

/-- The missing-server error message `_execute_mcp_tool` formats: it names
the missing server and lists the currently known server names. -/
def mcpMissingMsg (serverName : String) (ks : List String) : String :=
  "Server \x27" ++ serverName ++ "\x27 not installed. Available servers: " ++
    pyStrListRepr ks

/-- The stub note `_execute_mcp_tool` returns on the present branch. -/
def mcpStubNote : String :=
  "In a real implementation, this would connect to the MCP server and execute the tool"

/-- The result dictionaries SmitheryMCPAgent._execute_mcp_tool can return:
the `{error}` shape, or the `{server, tool, arguments, status, note}` stub
shape. -/
inductive McpExecResult where
  | err (error : String)
  | executed (server tool : String) (arguments : Option Config) (status note : String)
  deriving DecidableEq, Repr

/-- SmitheryMCPAgent._execute_mcp_tool: check registry membership; when the
server is absent return the error record naming it and listing the known
servers, otherwise return the descriptive stub result (no protocol call is
made — the function only formats the stub dictionary). -/
def executeMcpTool (reg : Registry) (serverName toolName : String)
    (arguments : Option Config) : McpExecResult :=
  match Registry.lookup reg serverName with
  | none => McpExecResult.err (mcpMissingMsg serverName (Registry.keys reg))
  | some _ =>
      McpExecResult.executed serverName toolName arguments "executed" mcpStubNote

end Smithery

namespace Smithery

theorem Registry.lookup_set_self (reg : Registry) (s : String) (v : ServerRecord) :
    Registry.lookup (Registry.set reg s v) s = some v := by
  induction reg with
  | nil => simp [Registry.set, Registry.lookup]
  | cons kv rest ih =>
      obtain ⟨k, w⟩ := kv
      by_cases h : k = s
      · simp [Registry.set, Registry.lookup, h]
      · simp [Registry.set, Registry.lookup, h, ih]

theorem Registry.lookup_set_ne (reg : Registry) (s t : String) (v : ServerRecord)
    (hne : t ≠ s) :
    Registry.lookup (Registry.set reg s v) t = Registry.lookup reg t := by
  have hst : s ≠ t := Ne.symm hne
  induction reg with
  | nil => simp [Registry.set, Registry.lookup, hst]
  | cons kv rest ih =>
      obtain ⟨k, w⟩ := kv
      by_cases h : k = s
      · subst h
        simp [Registry.set, Registry.lookup, hst]
      · simp [Registry.set, Registry.lookup, h, ih]

end Smithery

namespace Smithery

/-- C7: SmitherySearchTool.execute does not depend on its query or limit
parameters except for echoing the query: any two invocations return the
identical static results list and the identical note, and the query field
is the echoed input. -/
theorem searchExecute_ignores_query_limit (q1 q2 : String) (l1 l2 : Nat) :
    (searchExecute q1 l1).results = (searchExecute q2 l2).results
    ∧ (searchExecute q1 l1).note = (searchExecute q2 l2).note
    ∧ (searchExecute q1 l1).query = q1 :=
  ⟨rfl, rfl, rfl⟩

/-- C8: the command runner fails with the error carrying the captured
stderr text exactly when the spawned process exits non-zero, and on a zero
exit returns the captured (stdout, stderr) pair. -/
theorem runCommand_exit_code_contract (spawn : List String → ProcResult)
    (argv : List String) :
    ((spawn argv).returncode ≠ 0 →
      runCommand spawn argv
        = Except.error ("Command failed: " ++ (spawn argv).stderr))
    ∧ ((spawn argv).returncode = 0 →
      runCommand spawn argv
        = Except.ok ((spawn argv).stdout, (spawn argv).stderr)) := by
  constructor
  · intro h
    simp [runCommand, h]
  · intro h
    simp [runCommand, h]

/-- Witness for C8 at concrete processes: exit code 1 yields the error
carrying stderr, exit code 0 yields the output pair. -/
theorem runCommand_exit_code_contract_witness :
    runCommand (fun _ => ⟨1, "out", "boom"⟩) ["npx"]
      = Except.error ("Command failed: " ++ "boom")
    ∧ runCommand (fun _ => ⟨0, "out", "err"⟩) ["npx"]
      = Except.ok ("out", "err") :=
  ⟨(runCommand_exit_code_contract (fun _ => ⟨1, "out", "boom"⟩) ["npx"]).1
      (by decide),
   (runCommand_exit_code_contract (fun _ => ⟨0, "out", "err"⟩) ["npx"]).2 rfl⟩

/-- C1: when the external install command exits non-zero,
SmitheryInstallTool.execute returns the failed-shape result with
status "failed", the error field populated (non-empty: it carries the
exception message built from stderr), and the command field; the function
is total, so no exception passes the tool boundary. -/
theorem installExecute_nonzero_exit_failed (defaultClient serverName : String)
    (client configFile : Option String) (spawn : List String → ProcResult)
    (h : (spawn (installCmdParts serverName (resolveClient client defaultClient)
        configFile)).returncode ≠ 0) :
    installExecute defaultClient spawn serverName client configFile
      = InstallResult.failed serverName (resolveClient client defaultClient)
          "failed"
          ("Command failed: " ++
            (spawn (installCmdParts serverName
              (resolveClient client defaultClient) configFile)).stderr)
          (String.intercalate " "
            (installCmdParts serverName (resolveClient client defaultClient)
              configFile))
    ∧ ("Command failed: " ++
        (spawn (installCmdParts serverName (resolveClient client defaultClient)
          configFile)).stderr) ≠ "" := by
  constructor
  · simp [installExecute, runCommand, h]
  · intro hc
    have hlen := congrArg String.length hc
    rw [String.length_append] at hlen
    have h16 : ("Command failed: " : String).length = 16 := rfl
    have h0 : ("" : String).length = 0 := rfl
    rw [h16, h0] at hlen
    omega

/-- Witness for C1: a spawn that always fails with exit code 1 and stderr
"access denied" makes installExecute return the failed record. -/
theorem installExecute_nonzero_exit_failed_witness :
    installExecute "claude" (fun _ => ⟨1, "", "access denied"⟩) "exa" none none
      = InstallResult.failed "exa" "claude" "failed"
          ("Command failed: " ++ "access denied")
          (String.intercalate " "
            ["npx", "-y", "@smithery/cli", "install", "exa", "--client", "claude"])
    ∧ ("Command failed: " ++ "access denied") ≠ "" := by
  have h := installExecute_nonzero_exit_failed "claude" "exa" none none
    (fun _ => ⟨1, "", "access denied"⟩) (by decide)
  exact ⟨h.1, h.2⟩

end Smithery

namespace Smithery

/-- C2: after `execute(action="start", server_name=s, config=c)`, a
subsequent `execute(action="status", server_name=s)` returns the
status-info shape whose record has status "running" and the supplied
config; start always reports success (it overwrites any prior record
for s, as the status result shows). -/
theorem manager_start_then_status (reg : Registry) (s : String) (c : Config) :
    (managerExecute reg "start" s (some c)).2
      = ManagerResult.actionMsg s "start" "success"
          ("Server " ++ s ++ " started successfully")
    ∧ (managerExecute (managerExecute reg "start" s (some c)).1 "status" s none).2
      = ManagerResult.statusInfo s
          { status := "running", config := some c, pid := 12345 } := by
  constructor
  · rfl
  · simp [managerExecute, startServer, getStatus, Registry.lookup_set_self]

/-- C3: status on a server name absent from the registry returns the
not-installed shape. -/
theorem manager_status_absent_not_installed (reg : Registry) (s : String)
    (h : Registry.lookup reg s = none) :
    (managerExecute reg "status" s none).2
      = ManagerResult.notInstalled s "not_installed" := by
  simp [managerExecute, getStatus, h]

/-- Witness for C3 at the empty registry and server "exa". -/
theorem manager_status_absent_not_installed_witness :
    Registry.lookup ([] : Registry) "exa" = none
    ∧ (managerExecute [] "status" "exa" none).2
      = ManagerResult.notInstalled "exa" "not_installed" :=
  ⟨rfl, manager_status_absent_not_installed [] "exa" rfl⟩

/-- C4: stop after start sets the stored status to "stopped" and reports
success; stop on a server absent from the registry returns the error-shape
result (status "error" with a message), the function being total so no
exception is raised. -/
theorem manager_stop_after_start_and_on_missing (reg regMissing : Registry)
    (s : String) (c : Option Config)
    (h : Registry.lookup regMissing s = none) :
    (managerExecute (managerExecute reg "start" s c).1 "stop" s none).2
      = ManagerResult.actionMsg s "stop" "success"
          ("Server " ++ s ++ " stopped successfully")
    ∧ Option.map ServerRecord.status
        (Registry.lookup
          (managerExecute (managerExecute reg "start" s c).1 "stop" s none).1 s)
      = some "stopped"
    ∧ (managerExecute regMissing "stop" s none).2
      = ManagerResult.actionMsg s "stop" "error"
          ("Server " ++ s ++ " not found") := by
  refine ⟨?_, ?_, ?_⟩
  · simp [managerExecute, startServer, stopServer, Registry.lookup_set_self]
  · simp [managerExecute, startServer, stopServer, Registry.lookup_set_self]
  · simp [managerExecute, stopServer, h]

/-- Witness for C4: start then stop "exa" from the empty registry, and stop
"exa" directly on the empty registry. -/
theorem manager_stop_contract_witness :
    Registry.lookup ([] : Registry) "exa" = none
    ∧ (managerExecute (managerExecute [] "start" "exa" none).1 "stop" "exa" none).2
      = ManagerResult.actionMsg "exa" "stop" "success"
          ("Server " ++ "exa" ++ " stopped successfully")
    ∧ Option.map ServerRecord.status
        (Registry.lookup
          (managerExecute (managerExecute [] "start" "exa" none).1 "stop" "exa"
            none).1 "exa")
      = some "stopped"
    ∧ (managerExecute [] "stop" "exa" none).2
      = ManagerResult.actionMsg "exa" "stop" "error"
          ("Server " ++ "exa" ++ " not found") := by
  have h := manager_stop_after_start_and_on_missing [] [] "exa" none rfl
  exact ⟨rfl, h.1, h.2.1, h.2.2⟩

/-- C5: configure on a registered server replaces the stored config wholesale
with the supplied one (whole-object replacement) and leaves status and pid
unchanged; the scenario start("exa", key=v1), configure("exa", key=v2),
status("exa") shows config key=v2 with status "running". -/
theorem manager_configure_replaces_config (reg : Registry) (s : String)
    (r : ServerRecord) (c2 : Config)
    (h : Registry.lookup reg s = some r) :
    (managerExecute reg "configure" s (some c2)).2
      = ManagerResult.configOk s "configure" "success" (some c2)
    ∧ Registry.lookup (managerExecute reg "configure" s (some c2)).1 s
      = some { status := r.status, config := some c2, pid := r.pid }
    ∧ (managerExecute
        (managerExecute
          (managerExecute [] "start" "exa" (some [("key", JVal.str "v1")])).1
          "configure" "exa" (some [("key", JVal.str "v2")])).1
        "status" "exa" none).2
      = ManagerResult.statusInfo "exa"
          { status := "running", config := some [("key", JVal.str "v2")],
            pid := 12345 } := by
  refine ⟨?_, ?_, ?_⟩
  · simp [managerExecute, configureServer, h]
  · simp [managerExecute, configureServer, h, Registry.lookup_set_self]
  · rfl

/-- Witness for C5 at a one-entry registry holding "exa". -/
theorem manager_configure_replaces_config_witness :
    Registry.lookup [("exa", ⟨"running", some [], 12345⟩)] "exa"
      = some ⟨"running", some [], 12345⟩
    ∧ (managerExecute [("exa", ⟨"running", some [], 12345⟩)] "configure" "exa"
        (some [("key", JVal.str "v2")])).2
      = ManagerResult.configOk "exa" "configure" "success"
          (some [("key", JVal.str "v2")])
    ∧ Registry.lookup
        (managerExecute [("exa", ⟨"running", some [], 12345⟩)] "configure" "exa"
          (some [("key", JVal.str "v2")])).1 "exa"
      = some { status := "running", config := some [("key", JVal.str "v2")],
               pid := 12345 } := by
  have h := manager_configure_replaces_config
    [("exa", ⟨"running", some [], 12345⟩)] "exa" ⟨"running", some [], 12345⟩
    [("key", JVal.str "v2")] rfl
  exact ⟨rfl, h.1, h.2.1⟩

/-- C6: any action string outside start/stop/configure/status makes the
manager return the unknown-action error result carrying the literal list of
valid actions; the function is total, so nothing is raised. -/
theorem manager_unknown_action (reg : Registry) (a s : String)
    (c : Option Config)
    (h : a ∉ (["start", "stop", "configure", "status"] : List String)) :
    (managerExecute reg a s c).2
      = ManagerResult.unknownAction ("Unknown action: " ++ a)
          ["start", "stop", "configure", "status"] := by
  simp only [List.mem_cons, List.not_mem_nil, or_false, not_or] at h
  obtain ⟨h1, h2, h3, h4⟩ := h
  simp [managerExecute, h1, h2, h3, h4]

/-- Witness for C6 at the unknown action "restart". -/
theorem manager_unknown_action_witness :
    "restart" ∉ (["start", "stop", "configure", "status"] : List String)
    ∧ (managerExecute [] "restart" "exa" none).2
      = ManagerResult.unknownAction ("Unknown action: " ++ "restart")
          ["start", "stop", "configure", "status"] :=
  ⟨by decide, manager_unknown_action [] "restart" "exa" none (by decide)⟩

/-- C9: _execute_mcp_tool on an unregistered server returns the error record
built from the missing server name and the list of known server names; on a
registered server it returns the stub result with status "executed" (the
function only formats this dictionary — no protocol call exists in the
embedding because none exists in the source). -/
theorem executeMcpTool_membership (reg : Registry) (s t : String)
    (a : Option Config) :
    (Registry.lookup reg s = none →
      executeMcpTool reg s t a
        = McpExecResult.err (mcpMissingMsg s (Registry.keys reg)))
    ∧ (∀ r, Registry.lookup reg s = some r →
      executeMcpTool reg s t a
        = McpExecResult.executed s t a "executed" mcpStubNote) := by
  constructor
  · intro h
    simp [executeMcpTool, h]
  · intro r h
    simp [executeMcpTool, h]

/-- Witness for C9: the missing branch at the empty registry, the present
branch at a one-entry registry. -/
theorem executeMcpTool_membership_witness :
    (Registry.lookup ([] : Registry) "exa" = none
      ∧ executeMcpTool [] "exa" "search" none
        = McpExecResult.err (mcpMissingMsg "exa" (Registry.keys [])))
    ∧ (Registry.lookup [("exa", ⟨"running", some [], 12345⟩)] "exa"
        = some ⟨"running", some [], 12345⟩
      ∧ executeMcpTool [("exa", ⟨"running", some [], 12345⟩)] "exa" "search" none
        = McpExecResult.executed "exa" "search" none "executed" mcpStubNote) :=
  ⟨⟨rfl, (executeMcpTool_membership [] "exa" "search" none).1 rfl⟩,
   ⟨rfl,
    (executeMcpTool_membership [("exa", ⟨"running", some [], 12345⟩)] "exa"
        "search" none).2 ⟨"running", some [], 12345⟩ rfl⟩⟩

/-- C10: stop on a registered server mutates only the status field of that
server's record — config and pid are unchanged — and the record of every
other server name is untouched. -/
theorem manager_stop_frame (reg : Registry) (s : String) (r : ServerRecord)
    (h : Registry.lookup reg s = some r) :
    Registry.lookup (managerExecute reg "stop" s none).1 s
      = some { status := "stopped", config := r.config, pid := r.pid }
    ∧ ∀ t, t ≠ s →
        Registry.lookup (managerExecute reg "stop" s none).1 t
          = Registry.lookup reg t := by
  constructor
  · simp [managerExecute, stopServer, h, Registry.lookup_set_self]
  · intro t ht
    simp [managerExecute, stopServer, h, Registry.lookup_set_ne _ _ _ _ ht]

/-- Witness for C10 at a two-entry registry: stopping "exa" flips its status
and leaves the "web" record at its old value. -/
theorem manager_stop_frame_witness :
    Registry.lookup
        [("exa", ⟨"running", some [], 12345⟩), ("web", ⟨"running", some [], 12345⟩)]
        "exa"
      = some ⟨"running", some [], 12345⟩
    ∧ Registry.lookup
        (managerExecute
          [("exa", ⟨"running", some [], 12345⟩), ("web", ⟨"running", some [], 12345⟩)]
          "stop" "exa" none).1 "exa"
      = some { status := "stopped", config := some [], pid := 12345 }
    ∧ ("web" : String) ≠ "exa"
    ∧ Registry.lookup
        (managerExecute
          [("exa", ⟨"running", some [], 12345⟩), ("web", ⟨"running", some [], 12345⟩)]
          "stop" "exa" none).1 "web"
      = Registry.lookup
          [("exa", ⟨"running", some [], 12345⟩), ("web", ⟨"running", some [], 12345⟩)]
          "web" := by
  have h := manager_stop_frame
    [("exa", ⟨"running", some [], 12345⟩), ("web", ⟨"running", some [], 12345⟩)]
    "exa" ⟨"running", some [], 12345⟩ rfl
  exact ⟨rfl, h.1, by decide, h.2 "web" (by decide)⟩

end Smithery
